import Mathlib

/-!
# Input source selector

A shallow embedding of `UInputSourceSelectorSubsystem`
(`InputSourceSelectorSubsystem.h`, `InputSourceSelectorSubsystem.cpp`) and of the
enumeration of `InputSourceSelectorTypes.h`, followed by the properties of the
key classification, of the cached last input type and its change notification,
of the platform defaults, of the binding query and of the two binding steps.

Engine objects appear only through what the subsystem reads from them or
writes to them; every such view is described where it is declared.
-/

namespace InputSourceSelector

/-! ## Data model -/

/-- Enumeration `EInputSourceSelectorInputType` of `InputSourceSelectorTypes.h`,
with its variants in declaration order. -/
inductive EInputSourceSelectorInputType where
  | Unknown
  | MouseAndKeyboard
  | Gamepad
  | Touch
  | Gesture
  deriving DecidableEq, Repr

/-- Engine names (`FName`), by their text. -/
abbrev FName := String

/-- Engine strings (`FString`), here the platform identifier. -/
abbrev FString := String

/-- The comparison `operator==` of two `FString`s, which is also the key match
of a `TMap` keyed by `FString`: the texts are compared with letter case
ignored. -/
def FStringEq (A B : FString) : Bool :=
  A.data.map Char.toLower == B.data.map Char.toLower

/-- The comparison `operator==` of two `FName`s: the texts are compared with
letter case ignored. -/
def FNameEq (A B : FName) : Bool :=
  A.data.map Char.toLower == B.data.map Char.toLower

/-- Handle of an engine object, as passed for `WorldContext`. -/
abbrev UObject := Nat

/-- A key (`FKey`) as the subsystem observes it: its name and the answers of
the three capability queries `IsGamepadKey()`, `IsGesture()`, `IsTouch()`. -/
structure FKey where
  KeyName : FName
  IsGamepadKey : Bool
  IsGesture : Bool
  IsTouch : Bool
  deriving DecidableEq, Repr

/-- One broadcast of `OnInputTypeChange`, with the two parameters named in
`DECLARE_DYNAMIC_MULTICAST_DELEGATE_TwoParams`. -/
structure FOnInputSourceSelectorInputTypeChange where
  OldInputType : EInputSourceSelectorInputType
  NewInputType : EInputSourceSelectorInputType
  deriving DecidableEq, Repr

/-- Member state of `UInputSourceSelectorSubsystem`: `LastInputType`, which starts
as `Unknown`, and the weak pointer `FoundInputComponent`, which starts as
`nullptr` (`none`); a non-null pointer is the handle of an input component. -/
structure UInputSourceSelectorSubsystem where
  LastInputType : EInputSourceSelectorInputType := EInputSourceSelectorInputType.Unknown
  FoundInputComponent : Option Nat := none
  deriving DecidableEq, Repr

/-- A world as `GetLastInputType` observes it: the result of
`World->GetSubsystem<UInputSourceSelectorSubsystem>()`. -/
structure UWorld where
  GetSubsystem : Option UInputSourceSelectorSubsystem

/-- The engine as `GetLastInputType` observes it: the result of
`GEngine->GetWorldFromContextObject(WorldContext, EGetWorldErrorMode::ReturnNull)`. -/
structure UEngine where
  GetWorldFromContextObject : UObject → Option UWorld

/-! ## Classification -/

/-- `UInputSourceSelectorSubsystem::GetInputTypeFromKey`. -/
def GetInputTypeFromKey (Key : FKey) : EInputSourceSelectorInputType :=
  if Key.IsGamepadKey then
    EInputSourceSelectorInputType.Gamepad
  else if Key.IsGesture then
    EInputSourceSelectorInputType.Gesture
  else if Key.IsTouch then
    EInputSourceSelectorInputType.Touch
  else
    EInputSourceSelectorInputType.MouseAndKeyboard

/-- Reference classification in the words of the specification: a table over
the three capability flags, the gamepad flag deciding first, then the gesture
flag, then the touch flag, and mouse/keyboard when no flag is set. -/
def classifyReference : Bool → Bool → Bool → EInputSourceSelectorInputType
  | true, _, _ => EInputSourceSelectorInputType.Gamepad
  | false, true, _ => EInputSourceSelectorInputType.Gesture
  | false, false, true => EInputSourceSelectorInputType.Touch
  | false, false, false => EInputSourceSelectorInputType.MouseAndKeyboard

/-! ## Cached state and change notification -/

/-- `UInputSourceSelectorSubsystem::HandleInput`: the member state after the
call and the broadcasts of `OnInputTypeChange` made by it, in order. -/
def HandleInput (This : UInputSourceSelectorSubsystem) (Key : FKey) :
    UInputSourceSelectorSubsystem × List FOnInputSourceSelectorInputTypeChange :=
  let NewInputType := GetInputTypeFromKey Key
  if NewInputType ≠ This.LastInputType then
    let CachedInputType := This.LastInputType
    let This1 := { This with LastInputType := NewInputType }
    (This1, [FOnInputSourceSelectorInputTypeChange.mk CachedInputType NewInputType])
  else
    (This, [])

/-- Delivery of a sequence of key events to `HandleInput`, first to last; the
broadcasts of the successive calls are collected in order. -/
def HandleInputs (This : UInputSourceSelectorSubsystem) :
    List FKey → UInputSourceSelectorSubsystem × List FOnInputSourceSelectorInputTypeChange
  | [] => (This, [])
  | Key :: Keys =>
    let First := HandleInput This Key
    let Rest := HandleInputs First.1 Keys
    (Rest.1, First.2 ++ Rest.2)

/-! ## Last input type and platform defaults -/

/-- `TMap::Add` on a map keyed by `FString`, the map given by its entries in
order: an entry whose key matches the new key is replaced by the new pair,
otherwise the new pair is placed at the end. -/
def TMapAdd (Map : List (FString × EInputSourceSelectorInputType)) (Key : FString)
    (Value : EInputSourceSelectorInputType) : List (FString × EInputSourceSelectorInputType) :=
  match Map with
  | [] => [(Key, Value)]
  | Entry :: Rest =>
    if FStringEq Key Entry.1 then (Key, Value) :: Rest
    else Entry :: TMapAdd Rest Key Value

/-- `TMap::Find` on a map keyed by `FString`: the value of the entry whose key
matches, `none` when no key matches (`Contains` is false). -/
def TMapFind (Map : List (FString × EInputSourceSelectorInputType)) (Key : FString) :
    Option EInputSourceSelectorInputType :=
  match Map with
  | [] => none
  | Entry :: Rest =>
    if FStringEq Key Entry.1 then some Entry.2
    else TMapFind Rest Key

/-- The initializer list of the static table `PlatformDefaults` of
`GetLastInputType`, in source order. -/
def PlatformDefaultsInitializer : List (FString × EInputSourceSelectorInputType) :=
  [ ("Windows", EInputSourceSelectorInputType.MouseAndKeyboard),
    ("Mac", EInputSourceSelectorInputType.MouseAndKeyboard),
    ("Linux", EInputSourceSelectorInputType.MouseAndKeyboard),
    ("IOS", EInputSourceSelectorInputType.Touch),
    ("iOS", EInputSourceSelectorInputType.Touch),
    ("Android", EInputSourceSelectorInputType.Touch) ]

/-- The static table `PlatformDefaults` of `GetLastInputType`: the `TMap` built
from its initializer list, one `Add` per pair in source order. -/
def PlatformDefaults : List (FString × EInputSourceSelectorInputType) :=
  PlatformDefaultsInitializer.foldl (fun Map Pair => TMapAdd Map Pair.1 Pair.2) []

/-- `UInputSourceSelectorSubsystem::GetLastInputType`. The engine and the
result of `UGameplayStatics::GetPlatformName()` are passed in. The test
`PlatformDefaults.Contains(PlatformName)` followed by
`PlatformDefaults[PlatformName]` is the search of the table for a key that
matches the platform identifier. -/
def GetLastInputType (GEngine : UEngine) (PlatformName : FString) (WorldContext : UObject)
    (bUpgradeUnknownToDefaults : Bool) : EInputSourceSelectorInputType :=
  let RetVal0 := EInputSourceSelectorInputType.Unknown
  let RetVal1 :=
    match GEngine.GetWorldFromContextObject WorldContext with
    | some World =>
      match World.GetSubsystem with
      | some Subsystem => Subsystem.LastInputType
      | none => RetVal0
    | none => RetVal0
  if bUpgradeUnknownToDefaults && RetVal1 == EInputSourceSelectorInputType.Unknown then
    match TMapFind PlatformDefaults PlatformName with
    | some Default => Default
    | none => EInputSourceSelectorInputType.Gamepad
  else
    RetVal1

/-! ## Input settings and the binding query -/

/-- An action mapping of the input settings (`FInputActionKeyMapping`): the
action name and the key, the two members the subsystem reads and sets. -/
structure FInputActionKeyMapping where
  ActionName : FName
  Key : FKey
  deriving DecidableEq, Repr

/-- An axis mapping of the input settings (`FInputAxisKeyMapping`): the axis
name and the key. -/
structure FInputAxisKeyMapping where
  AxisName : FName
  Key : FKey
  deriving DecidableEq, Repr

/-- The input settings object (`UInputSettings`) as the subsystem observes it:
its table of action mappings (`GetActionMappings()`) and its table of axis
mappings. -/
structure UInputSettings where
  ActionMappings : List FInputActionKeyMapping
  AxisMappings : List FInputAxisKeyMapping
  deriving DecidableEq, Repr

/-- Modelled from the spec: `UInputSettings::GetActionMappingByName` is engine
code; it is the host query "existing action bindings by name", which reports the
entries of the action table that carry the name. The order of the report is the
host's; the table order stands for it. -/
def UInputSettings.GetActionMappingByName (InputSettings : UInputSettings) (Name : FName) :
    List FInputActionKeyMapping :=
  InputSettings.ActionMappings.filter (fun Mapping => Mapping.ActionName == Name)

/-- Modelled from the spec: `UInputSettings::GetAxisMappingByName` is engine
code; it is the host query "existing axis bindings by name", which reports the
entries of the axis table that carry the name. The order of the report is the
host's; the table order stands for it. -/
def UInputSettings.GetAxisMappingByName (InputSettings : UInputSettings) (Name : FName) :
    List FInputAxisKeyMapping :=
  InputSettings.AxisMappings.filter (fun Mapping => Mapping.AxisName == Name)

/-- Modelled from the spec: `UInputSettings::AddActionMapping` is engine code;
it is the host operation that registers a binding, placing the mapping at the
end of the action table. -/
def UInputSettings.AddActionMapping (InputSettings : UInputSettings)
    (KeyMapping : FInputActionKeyMapping) : UInputSettings :=
  { InputSettings with ActionMappings := InputSettings.ActionMappings ++ [KeyMapping] }

/-- `UInputSourceSelectorSubsystem::GetKeysByInputBindingName`. The result of
`UInputSettings::GetInputSettings()` is passed in (`none` when no settings
object is available), together with the engine and the platform name that
`GetLastInputType` reads. Each range-for loop is a left fold whose step is the
loop body, `Keys.Add` placing the key at the end of `Keys`. -/
def GetKeysByInputBindingName (GEngine : UEngine) (PlatformName : FString)
    (GetInputSettings : Option UInputSettings) (WorldContext : UObject) (Name : FName) :
    List FKey :=
  match GetInputSettings with
  | some InputSettings =>
    let DesiredInputType := GetLastInputType GEngine PlatformName WorldContext true
    let Keys0 : List FKey := []
    let ActionMappings := InputSettings.GetActionMappingByName Name
    let Keys1 := ActionMappings.foldl
      (fun Keys Mapping =>
        if GetInputTypeFromKey Mapping.Key == DesiredInputType then Keys ++ [Mapping.Key]
        else Keys)
      Keys0
    let AxisMappings := InputSettings.GetAxisMappingByName Name
    let Keys2 := AxisMappings.foldl
      (fun Keys Mapping =>
        if GetInputTypeFromKey Mapping.Key == DesiredInputType then Keys ++ [Mapping.Key]
        else Keys)
      Keys1
    Keys2
  | none => []

/-! ## Registration of the catch-all binding -/

/-- The static member `UInputSourceSelectorSubsystem::ActionName`. -/
def ActionName : FName := "UInputSourceSelectorSubsystem.InputSourceListenerAction"

/-- The engine key `EKeys::AnyKey`; it reports no device capability. -/
def EKeys.AnyKey : FKey := FKey.mk "AnyKey" false false false

/-- The loop of `SetUpInputBindings` over `Settings->GetActionMappings()`:
`true` when the loop reaches a mapping whose action name compares equal to
`ActionName` (`Mapping.ActionName == ActionName` on `FName`s) and returns from
the function, `false` when it runs to the end of the table. -/
def SetUpInputBindings.returnsInLoop : List FInputActionKeyMapping → Bool
  | [] => false
  | Mapping :: Mappings =>
    if FNameEq Mapping.ActionName ActionName then true
    else SetUpInputBindings.returnsInLoop Mappings

/-- `UInputSourceSelectorSubsystem::SetUpInputBindings`, as a function of the
result of `UInputSettings::GetInputSettings()`: the settings after the call. -/
def SetUpInputBindings (GetInputSettings : Option UInputSettings) : Option UInputSettings :=
  match GetInputSettings with
  | some Settings =>
    if SetUpInputBindings.returnsInLoop Settings.ActionMappings then
      some Settings
    else
      some (Settings.AddActionMapping (FInputActionKeyMapping.mk ActionName EKeys.AnyKey))
  | none => none

/-! ## Attachment of the listener -/

/-- Key events of an action binding (`EInputEvent`). -/
inductive EInputEvent where
  | IE_Pressed
  | IE_Released
  | IE_Repeat
  | IE_DoubleClick
  | IE_Axis
  deriving DecidableEq, Repr

/-- What the delegate of an action binding is bound to: nothing, or the
method `HandleInput` of the subsystem. -/
inductive FInputActionUnifiedDelegate where
  | Unbound
  | HandleInput
  deriving DecidableEq, Repr

/-- An action binding of an input component (`FInputActionBinding`): the
action name and key event given to its constructor, the member `bConsumeInput`
and the member `ActionDelegate`. -/
structure FInputActionBinding where
  ActionName : FName
  KeyEvent : EInputEvent
  bConsumeInput : Bool
  ActionDelegate : FInputActionUnifiedDelegate
  deriving DecidableEq, Repr

/-- The constructor `FInputActionBinding(ActionName, KeyEvent)`: a consuming
binding whose delegate is not bound yet. -/
def FInputActionBinding.new (InActionName : FName) (InKeyEvent : EInputEvent) :
    FInputActionBinding :=
  FInputActionBinding.mk InActionName InKeyEvent true FInputActionUnifiedDelegate.Unbound

/-- The owner of an input component as `BindToInputComponent` observes it: a
player controller, with the answer of `IsPrimaryPlayer()`, or another actor. -/
inductive AActor where
  | PlayerController (bIsPrimaryPlayer : Bool)
  | Other
  deriving DecidableEq, Repr

/-- An input component (`UInputComponent`): whether a weak pointer to it is
valid, the result of `GetOwner()` (`none` for a null owner) and its action
bindings in order. -/
structure UInputComponent where
  bIsValid : Bool
  GetOwner : Option AActor
  ActionBindings : List FInputActionBinding
  deriving DecidableEq, Repr

/-- A controller as the re-acquisition observes it: the result of
`GetComponentByClass<UInputComponent>()`, the handle of an input component or
`none`. -/
structure AController where
  GetComponentByClass : Option Nat
  deriving DecidableEq, Repr

/-- The part of the world that `BindToInputComponent` reads and writes: the
input components by handle and the result of
`UGameplayStatics::GetPlayerController(this, 0)`. -/
structure FInputWorld where
  InputComponents : Nat → UInputComponent
  GetPlayerController0 : Option AController

/-- `Cast<APlayerController>(Owner)`: the answer of `IsPrimaryPlayer()` of the
owner when the owner is a player controller, `none` for a null owner or
another actor. -/
def CastPlayerController : Option AActor → Option Bool
  | some (AActor.PlayerController bIsPrimaryPlayer) => some bIsPrimaryPlayer
  | some AActor.Other => none
  | none => none

/-- Modelled from the spec: `UInputComponent::RemoveActionBinding(ActionName,
KeyEvent)` is engine code; it is the endpoint operation "remove a named
listener from an endpoint", which takes the first binding of that name and key
event out of the list. -/
def UInputComponent.RemoveActionBinding (Component : UInputComponent) (InActionName : FName)
    (InKeyEvent : EInputEvent) : UInputComponent :=
  { Component with
    ActionBindings := Component.ActionBindings.eraseP
      (fun Binding =>
        FNameEq Binding.ActionName InActionName && Binding.KeyEvent == InKeyEvent) }

/-- Modelled from the spec: `UInputComponent::AddActionBinding` is engine code;
it is the endpoint operation "attach a named listener to an endpoint", which
places the binding at the end of the list. -/
def UInputComponent.AddActionBinding (Component : UInputComponent)
    (Binding : FInputActionBinding) : UInputComponent :=
  { Component with ActionBindings := Component.ActionBindings ++ [Binding] }

/-- The world in which the component behind `Handle` is replaced. -/
def FInputWorld.setComponent (World : FInputWorld) (Handle : Nat)
    (Component : UInputComponent) : FInputWorld :=
  { World with
    InputComponents := fun Other =>
      if Other = Handle then Component else World.InputComponents Other }

/-- `TWeakObjectPtr::IsValid()` for `FoundInputComponent`: the pointer is not
null and its component is still valid. -/
def IsValid (World : FInputWorld) (FoundInputComponent : Option Nat) : Bool :=
  match FoundInputComponent with
  | some Handle => (World.InputComponents Handle).bIsValid
  | none => false

/-- The first statement of `BindToInputComponent` (the `if` on
`FoundInputComponent.IsValid()`): `none` when the function returns there
("We have the right one!"), otherwise the world in which the function goes on
to look for the first player. The test `IsValid()` is the match on the pointer
together with the validity flag of the component it points to. -/
def BindToInputComponent.checkFound (World : FInputWorld)
    (This : UInputSourceSelectorSubsystem) : Option FInputWorld :=
  match This.FoundInputComponent with
  | some Handle =>
    if (World.InputComponents Handle).bIsValid then
      match CastPlayerController (World.InputComponents Handle).GetOwner with
      | some bIsPrimaryPlayer =>
        if bIsPrimaryPlayer then
          none
        else
          some (World.setComponent Handle
            ((World.InputComponents Handle).RemoveActionBinding ActionName
              EInputEvent.IE_Pressed))
      | none => some World
    else
      some World
  | none => some World

/-- The second statement of `BindToInputComponent` (the `if` on
`UGameplayStatics::GetPlayerController(this, 0)`). -/
def BindToInputComponent.findFirstPlayer (World : FInputWorld)
    (This : UInputSourceSelectorSubsystem) : FInputWorld × UInputSourceSelectorSubsystem :=
  match World.GetPlayerController0 with
  | some PlayerController =>
    match PlayerController.GetComponentByClass with
    | some PlayerInputComponent =>
      let This1 := { This with FoundInputComponent := some PlayerInputComponent }
      let NonConsumingBinding0 := FInputActionBinding.new ActionName EInputEvent.IE_Pressed
      let NonConsumingBinding1 := { NonConsumingBinding0 with bConsumeInput := false }
      let NonConsumingBinding2 :=
        { NonConsumingBinding1 with ActionDelegate := FInputActionUnifiedDelegate.HandleInput }
      (World.setComponent PlayerInputComponent
        ((World.InputComponents PlayerInputComponent).AddActionBinding NonConsumingBinding2),
       This1)
    | none => (World, This)
  | none => (World, This)

/-- `UInputSourceSelectorSubsystem::BindToInputComponent`: the world and the
member state after the call. -/
def BindToInputComponent (World : FInputWorld) (This : UInputSourceSelectorSubsystem) :
    FInputWorld × UInputSourceSelectorSubsystem :=
  match BindToInputComponent.checkFound World This with
  | none => (World, This)
  | some World1 => BindToInputComponent.findFirstPlayer World1 This

/-- `UInputSourceSelectorSubsystem::Tick`. -/
def Tick (World : FInputWorld) (This : UInputSourceSelectorSubsystem) :
    FInputWorld × UInputSourceSelectorSubsystem :=
  BindToInputComponent World This

/-- `UInputSourceSelectorSubsystem::Initialize`, as a function of the input
settings, the world and the member state: `SetUpInputBindings()` and then
`BindToInputComponent()`. -/
def Initialize (GetInputSettings : Option UInputSettings) (World : FInputWorld)
    (This : UInputSourceSelectorSubsystem) :
    Option UInputSettings × FInputWorld × UInputSourceSelectorSubsystem :=
  let Settings1 := SetUpInputBindings GetInputSettings
  let Bound := BindToInputComponent World This
  (Settings1, Bound.1, Bound.2)

/-- A newly constructed subsystem object: every member has the value of its
default member initializer in `InputSourceSelectorSubsystem.h`. -/
def NewObject : UInputSourceSelectorSubsystem := {}

/-- Whether the owner of the component behind `Handle` is a player controller,
that is, whether `Cast<APlayerController>(GetOwner())` is not null. -/
def OwnedByPlayerController (World : FInputWorld) (Handle : Nat) : Bool :=
  (CastPlayerController (World.InputComponents Handle).GetOwner).isSome

/-- The binding that `BindToInputComponent` adds: named `ActionName`, for
`IE_Pressed`, not consuming the input, bound to `HandleInput`. -/
def ListenerBinding : FInputActionBinding :=
  FInputActionBinding.mk ActionName EInputEvent.IE_Pressed false
    FInputActionUnifiedDelegate.HandleInput

/-- The world after `RemoveActionBinding(ActionName, IE_Pressed)` on the
component behind `Handle`. -/
def FInputWorld.detached (World : FInputWorld) (Handle : Nat) : FInputWorld :=
  World.setComponent Handle
    ((World.InputComponents Handle).RemoveActionBinding ActionName EInputEvent.IE_Pressed)

/-- The world after `AddActionBinding` of the listener on the component behind
`Handle`. -/
def FInputWorld.attached (World : FInputWorld) (Handle : Nat) : FInputWorld :=
  World.setComponent Handle ((World.InputComponents Handle).AddActionBinding ListenerBinding)

/-! ## Concrete inputs used by the instances below -/

/-- A gamepad face button. -/
def keyGamepadFaceButton : FKey := FKey.mk "Gamepad_FaceButton_Bottom" true false false

/-- A keyboard key. -/
def keySpaceBar : FKey := FKey.mk "SpaceBar" false false false

/-- A touch key. -/
def keyTouch1 : FKey := FKey.mk "Touch1" false false true

/-- An engine in which no context resolves to a world. -/
def engineWithoutWorld : UEngine := UEngine.mk (fun _ => none)

/-- An engine whose every context resolves to a world without a tracker. -/
def engineWithoutTracker : UEngine := UEngine.mk (fun _ => some (UWorld.mk none))

/-- An engine whose every context resolves to a world with the given tracker. -/
def engineWithTracker (Subsystem : UInputSourceSelectorSubsystem) : UEngine :=
  UEngine.mk (fun _ => some (UWorld.mk (some Subsystem)))

/-- A world with two valid input components: component 0 carries the listener
and has the given owner, component 1 belongs to the primary player controller
and is the input component of player 0. -/
def worldWithOwner (Owner : Option AActor) : FInputWorld :=
  FInputWorld.mk
    (fun Handle =>
      if Handle = 0 then UInputComponent.mk true Owner [ListenerBinding]
      else UInputComponent.mk true (some (AActor.PlayerController true)) [])
    (some (AController.mk (some 1)))

/-- A tracker attached to component 0. -/
def trackerAttachedTo0 : UInputSourceSelectorSubsystem :=
  UInputSourceSelectorSubsystem.mk EInputSourceSelectorInputType.Unknown (some 0)

/-- Input settings in which the name "Jump" is bound to keys of three devices
in the action table and to a gamepad key in the axis table. -/
def settingsJump : UInputSettings :=
  UInputSettings.mk
    [ FInputActionKeyMapping.mk "Jump" keySpaceBar,
      FInputActionKeyMapping.mk "Jump" keyGamepadFaceButton,
      FInputActionKeyMapping.mk "Fire" keyGamepadFaceButton,
      FInputActionKeyMapping.mk "Jump" keyTouch1 ]
    [ FInputAxisKeyMapping.mk "Jump" keyGamepadFaceButton,
      FInputAxisKeyMapping.mk "Jump" keySpaceBar ]

/-- Input settings whose action table already holds a mapping under the
reserved name, written in lower case. -/
def settingsReservedLowerCase : UInputSettings :=
  UInputSettings.mk
    [ FInputActionKeyMapping.mk "Jump" keySpaceBar,
      FInputActionKeyMapping.mk "uinputsourceselectorsubsystem.inputsourcelisteneraction"
        EKeys.AnyKey ]
    []

/-! ## Classification: properties -/

theorem GetInputTypeFromKey_cases (Key : FKey) :
    GetInputTypeFromKey Key = EInputSourceSelectorInputType.Gamepad ∨
    GetInputTypeFromKey Key = EInputSourceSelectorInputType.Gesture ∨
    GetInputTypeFromKey Key = EInputSourceSelectorInputType.Touch ∨
    GetInputTypeFromKey Key = EInputSourceSelectorInputType.MouseAndKeyboard := by
  unfold GetInputTypeFromKey
  split
  · exact Or.inl rfl
  · split
    · exact Or.inr (Or.inl rfl)
    · split
      · exact Or.inr (Or.inr (Or.inl rfl))
      · exact Or.inr (Or.inr (Or.inr rfl))

theorem GetInputTypeFromKey_ne_Unknown (Key : FKey) :
    GetInputTypeFromKey Key ≠ EInputSourceSelectorInputType.Unknown := by
  rcases GetInputTypeFromKey_cases Key with h | h | h | h <;> rw [h] <;> decide

/-- C2: for every key, `GetInputTypeFromKey` equals the fixed-priority reference
over the capability flags (gamepad first, then gesture, then touch, otherwise
mouse/keyboard); a key flagged gamepad and touch classifies as Gamepad, and a
key flagged gesture and touch but not gamepad classifies as Gesture. -/
theorem GetInputTypeFromKey_eq_classifyReference (Key : FKey) :
    GetInputTypeFromKey Key = classifyReference Key.IsGamepadKey Key.IsGesture Key.IsTouch ∧
    (∀ (Name : FName) (bGesture : Bool),
      GetInputTypeFromKey (FKey.mk Name true bGesture true) =
        EInputSourceSelectorInputType.Gamepad) ∧
    (∀ Name : FName,
      GetInputTypeFromKey (FKey.mk Name false true true) =
        EInputSourceSelectorInputType.Gesture) := by
  refine ⟨?_, ?_, ?_⟩
  · obtain ⟨Name, bGamepad, bGesture, bTouch⟩ := Key
    cases bGamepad <;> cases bGesture <;> cases bTouch <;> rfl
  · intro Name bGesture
    rfl
  · intro Name
    rfl

/-- C7: for every key, whatever its capability flags, `GetInputTypeFromKey`
returns a value, and that value is one of Gamepad, Gesture, Touch,
MouseAndKeyboard and is not Unknown. -/
theorem GetInputTypeFromKey_total_never_Unknown (Name : FName)
    (bGamepad bGesture bTouch : Bool) :
    ∃ InputType : EInputSourceSelectorInputType,
      GetInputTypeFromKey (FKey.mk Name bGamepad bGesture bTouch) = InputType ∧
      InputType ∈ [EInputSourceSelectorInputType.Gamepad, EInputSourceSelectorInputType.Gesture,
        EInputSourceSelectorInputType.Touch, EInputSourceSelectorInputType.MouseAndKeyboard] ∧
      InputType ≠ EInputSourceSelectorInputType.Unknown := by
  refine ⟨GetInputTypeFromKey (FKey.mk Name bGamepad bGesture bTouch), rfl, ?_, ?_⟩
  · cases bGamepad <;> cases bGesture <;> cases bTouch <;> simp [GetInputTypeFromKey]
  · exact GetInputTypeFromKey_ne_Unknown _

/-! ## Cached state and change notification: properties -/

theorem HandleInput_of_ne (This : UInputSourceSelectorSubsystem) (Key : FKey)
    (h : GetInputTypeFromKey Key ≠ This.LastInputType) :
    HandleInput This Key =
      ({ This with LastInputType := GetInputTypeFromKey Key },
       [FOnInputSourceSelectorInputTypeChange.mk This.LastInputType (GetInputTypeFromKey Key)]) := by
  simp [HandleInput, h]

theorem HandleInput_of_eq (This : UInputSourceSelectorSubsystem) (Key : FKey)
    (h : GetInputTypeFromKey Key = This.LastInputType) :
    HandleInput This Key = (This, []) := by
  simp [HandleInput, h]

/-- C1: handling a key event whose classification differs from the cached
`LastInputType` stores the classification in the cache, leaves the rest of the
tracker as it was and broadcasts exactly one notification (old cached type,
new type); handling one whose classification equals the cached type leaves the
tracker unchanged and broadcasts nothing. A notification is broadcast if and
only if the classification differs from the cached type. -/
theorem HandleInput_notifies_iff_changed (This : UInputSourceSelectorSubsystem) (Key : FKey) :
    (GetInputTypeFromKey Key ≠ This.LastInputType →
      (HandleInput This Key).1.LastInputType = GetInputTypeFromKey Key ∧
      (HandleInput This Key).1.FoundInputComponent = This.FoundInputComponent ∧
      (HandleInput This Key).2 =
        [FOnInputSourceSelectorInputTypeChange.mk This.LastInputType
          (GetInputTypeFromKey Key)]) ∧
    (GetInputTypeFromKey Key = This.LastInputType →
      (HandleInput This Key).1 = This ∧ (HandleInput This Key).2 = []) ∧
    ((HandleInput This Key).2 ≠ [] ↔ GetInputTypeFromKey Key ≠ This.LastInputType) := by
  refine ⟨?_, ?_, ?_⟩
  · intro h
    rw [HandleInput_of_ne This Key h]
    exact ⟨rfl, rfl, rfl⟩
  · intro h
    rw [HandleInput_of_eq This Key h]
    exact ⟨rfl, rfl⟩
  · by_cases h : GetInputTypeFromKey Key = This.LastInputType
    · rw [HandleInput_of_eq This Key h]
      simp [h]
    · rw [HandleInput_of_ne This Key h]
      simp [h]

/-- C1 at concrete inputs: a newly created tracker handles a gamepad key, and
the tracker that results handles the same key again. -/
theorem HandleInput_notifies_iff_changed_witness :
    ((HandleInput NewObject keyGamepadFaceButton).1.LastInputType =
        EInputSourceSelectorInputType.Gamepad ∧
      (HandleInput NewObject keyGamepadFaceButton).1.FoundInputComponent = none ∧
      (HandleInput NewObject keyGamepadFaceButton).2 =
        [FOnInputSourceSelectorInputTypeChange.mk EInputSourceSelectorInputType.Unknown
          EInputSourceSelectorInputType.Gamepad]) ∧
    ((HandleInput (UInputSourceSelectorSubsystem.mk EInputSourceSelectorInputType.Gamepad none)
        keyGamepadFaceButton).1 =
        UInputSourceSelectorSubsystem.mk EInputSourceSelectorInputType.Gamepad none ∧
      (HandleInput (UInputSourceSelectorSubsystem.mk EInputSourceSelectorInputType.Gamepad none)
        keyGamepadFaceButton).2 = []) :=
  ⟨(HandleInput_notifies_iff_changed NewObject keyGamepadFaceButton).1 (by decide),
   (HandleInput_notifies_iff_changed
      (UInputSourceSelectorSubsystem.mk EInputSourceSelectorInputType.Gamepad none)
      keyGamepadFaceButton).2.1 rfl⟩

/-- C6: from a tracker whose cached type is Unknown, two key events with the
same classification `c` broadcast exactly one notification in total,
(Unknown, c), made by the first event; two key events with different
classifications `c1`, `c2` broadcast exactly two, (Unknown, c1) and then
(c1, c2). -/
theorem HandleInputs_two_events (This : UInputSourceSelectorSubsystem) (Key1 Key2 : FKey)
    (hFresh : This.LastInputType = EInputSourceSelectorInputType.Unknown) :
    (GetInputTypeFromKey Key1 = GetInputTypeFromKey Key2 →
      (HandleInputs This [Key1, Key2]).2 =
        [FOnInputSourceSelectorInputTypeChange.mk EInputSourceSelectorInputType.Unknown
          (GetInputTypeFromKey Key1)] ∧
      (HandleInput This Key1).2 =
        [FOnInputSourceSelectorInputTypeChange.mk EInputSourceSelectorInputType.Unknown
          (GetInputTypeFromKey Key1)] ∧
      (HandleInput (HandleInput This Key1).1 Key2).2 = []) ∧
    (GetInputTypeFromKey Key1 ≠ GetInputTypeFromKey Key2 →
      (HandleInputs This [Key1, Key2]).2 =
        [FOnInputSourceSelectorInputTypeChange.mk EInputSourceSelectorInputType.Unknown
          (GetInputTypeFromKey Key1),
         FOnInputSourceSelectorInputTypeChange.mk (GetInputTypeFromKey Key1)
          (GetInputTypeFromKey Key2)]) := by
  have h1 : GetInputTypeFromKey Key1 ≠ This.LastInputType := by
    rw [hFresh]
    exact GetInputTypeFromKey_ne_Unknown Key1
  have hStep : HandleInput This Key1 =
      ({ This with LastInputType := GetInputTypeFromKey Key1 },
       [FOnInputSourceSelectorInputTypeChange.mk EInputSourceSelectorInputType.Unknown
        (GetInputTypeFromKey Key1)]) := by
    rw [HandleInput_of_ne This Key1 h1, hFresh]
  constructor
  · intro hSame
    have h2 : HandleInput (HandleInput This Key1).1 Key2 = ((HandleInput This Key1).1, []) := by
      apply HandleInput_of_eq
      rw [hStep]
      exact hSame.symm
    refine ⟨?_, ?_, ?_⟩
    · simp only [HandleInputs, h2]
      rw [hStep]
      rfl
    · rw [hStep]
    · rw [h2]
  · intro hDiff
    have h2 : GetInputTypeFromKey Key2 ≠ (HandleInput This Key1).1.LastInputType := by
      rw [hStep]
      exact fun h => hDiff h.symm
    simp only [HandleInputs, HandleInput_of_ne _ Key2 h2]
    rw [hStep]
    rfl

/-- C6 at concrete inputs: the fresh tracker, a gamepad key and a keyboard key. -/
theorem HandleInputs_two_events_witness :
    ((HandleInputs (UInputSourceSelectorSubsystem.mk EInputSourceSelectorInputType.Unknown none)
        [keyGamepadFaceButton, keySpaceBar]).2 =
      [FOnInputSourceSelectorInputTypeChange.mk EInputSourceSelectorInputType.Unknown
        EInputSourceSelectorInputType.Gamepad,
       FOnInputSourceSelectorInputTypeChange.mk EInputSourceSelectorInputType.Gamepad
        EInputSourceSelectorInputType.MouseAndKeyboard]) ∧
    ((HandleInputs (UInputSourceSelectorSubsystem.mk EInputSourceSelectorInputType.Unknown none)
        [keyTouch1, keyTouch1]).2 =
      [FOnInputSourceSelectorInputTypeChange.mk EInputSourceSelectorInputType.Unknown
        EInputSourceSelectorInputType.Touch]) :=
  ⟨(HandleInputs_two_events _ keyGamepadFaceButton keySpaceBar rfl).2 (by decide),
   ((HandleInputs_two_events _ keyTouch1 keyTouch1 rfl).1 rfl).1⟩

/-! ## Last input type and platform defaults: properties -/

theorem FStringEq_IOS (PlatformName : FString) :
    FStringEq PlatformName "IOS" = FStringEq PlatformName "iOS" := by
  have h : ("IOS" : FString).data.map Char.toLower = ("iOS" : FString).data.map Char.toLower := by
    decide
  simp only [FStringEq, h]

theorem PlatformDefaults_entries :
    PlatformDefaults =
      [ ("Windows", EInputSourceSelectorInputType.MouseAndKeyboard),
        ("Mac", EInputSourceSelectorInputType.MouseAndKeyboard),
        ("Linux", EInputSourceSelectorInputType.MouseAndKeyboard),
        ("iOS", EInputSourceSelectorInputType.Touch),
        ("Android", EInputSourceSelectorInputType.Touch) ] := by
  decide

theorem PlatformDefaults_find (PlatformName : FString) :
    TMapFind PlatformDefaults PlatformName =
      if (FStringEq PlatformName "Windows" || FStringEq PlatformName "Mac" ||
          FStringEq PlatformName "Linux") = true then
        some EInputSourceSelectorInputType.MouseAndKeyboard
      else if (FStringEq PlatformName "IOS" || FStringEq PlatformName "iOS" ||
          FStringEq PlatformName "Android") = true then
        some EInputSourceSelectorInputType.Touch
      else
        none := by
  rw [PlatformDefaults_entries, FStringEq_IOS]
  simp only [TMapFind]
  cases FStringEq PlatformName "Windows" <;> cases FStringEq PlatformName "Mac" <;>
    cases FStringEq PlatformName "Linux" <;> cases FStringEq PlatformName "iOS" <;>
    cases FStringEq PlatformName "Android" <;> rfl

theorem GetLastInputType_false (GEngine : UEngine) (PlatformName : FString)
    (WorldContext : UObject) :
    GetLastInputType GEngine PlatformName WorldContext false =
      match GEngine.GetWorldFromContextObject WorldContext with
      | some World =>
        match World.GetSubsystem with
        | some Subsystem => Subsystem.LastInputType
        | none => EInputSourceSelectorInputType.Unknown
      | none => EInputSourceSelectorInputType.Unknown := by
  simp [GetLastInputType]

theorem BindToInputComponent_LastInputType (World : FInputWorld)
    (This : UInputSourceSelectorSubsystem) :
    (BindToInputComponent World This).2.LastInputType = This.LastInputType := by
  unfold BindToInputComponent
  cases BindToInputComponent.checkFound World This with
  | none => rfl
  | some World1 =>
    simp only [BindToInputComponent.findFirstPlayer]
    cases hController : World1.GetPlayerController0 with
    | none => rfl
    | some PlayerController =>
      cases hComponent : PlayerController.GetComponentByClass with
      | none => simp only [hComponent]
      | some PlayerInputComponent => simp only [hComponent]

/-- C4: with `bUpgradeUnknownToDefaults = false`, `GetLastInputType` returns the
cached `LastInputType` of the tracker the context resolves to, and Unknown when
the context resolves to no world or the world has no tracker, whatever the
platform name; for a newly created tracker, also after `Initialize`, with no
key event handled, it returns Unknown. -/
theorem GetLastInputType_without_upgrade (GEngine : UEngine) (PlatformName : FString)
    (WorldContext : UObject) :
    (∀ (World : UWorld) (Subsystem : UInputSourceSelectorSubsystem),
      GEngine.GetWorldFromContextObject WorldContext = some World →
      World.GetSubsystem = some Subsystem →
      GetLastInputType GEngine PlatformName WorldContext false = Subsystem.LastInputType) ∧
    (GEngine.GetWorldFromContextObject WorldContext = none →
      GetLastInputType GEngine PlatformName WorldContext false =
        EInputSourceSelectorInputType.Unknown) ∧
    (∀ World : UWorld,
      GEngine.GetWorldFromContextObject WorldContext = some World →
      World.GetSubsystem = none →
      GetLastInputType GEngine PlatformName WorldContext false =
        EInputSourceSelectorInputType.Unknown) ∧
    (∀ (World : UWorld) (Settings : Option UInputSettings) (InputWorld : FInputWorld),
      GEngine.GetWorldFromContextObject WorldContext = some World →
      (World.GetSubsystem = some NewObject ∨
        World.GetSubsystem = some (Initialize Settings InputWorld NewObject).2.2 ∨
        World.GetSubsystem = some (HandleInputs NewObject []).1) →
      GetLastInputType GEngine PlatformName WorldContext false =
        EInputSourceSelectorInputType.Unknown) := by
  rw [GetLastInputType_false]
  refine ⟨?_, ?_, ?_, ?_⟩
  · intro World Subsystem hWorld hSubsystem
    simp [hWorld, hSubsystem]
  · intro hWorld
    simp [hWorld]
  · intro World hWorld hSubsystem
    simp [hWorld, hSubsystem]
  · intro World Settings InputWorld hWorld hSubsystem
    rcases hSubsystem with h | h | h
    · simp [hWorld, h, NewObject]
    · simp only [hWorld, h, Initialize, BindToInputComponent_LastInputType]
      rfl
    · simp [hWorld, h, HandleInputs, NewObject]

/-- C4 at concrete inputs: no world, a world without tracker, a tracker that
last saw touch input, and a newly created tracker. -/
theorem GetLastInputType_without_upgrade_witness :
    GetLastInputType engineWithoutWorld "Windows" 0 false =
      EInputSourceSelectorInputType.Unknown ∧
    GetLastInputType engineWithoutTracker "Windows" 0 false =
      EInputSourceSelectorInputType.Unknown ∧
    GetLastInputType
        (engineWithTracker (UInputSourceSelectorSubsystem.mk
          EInputSourceSelectorInputType.Touch none)) "Windows" 0 false =
      EInputSourceSelectorInputType.Touch ∧
    GetLastInputType (engineWithTracker NewObject) "Windows" 0 false =
      EInputSourceSelectorInputType.Unknown :=
  ⟨(GetLastInputType_without_upgrade engineWithoutWorld "Windows" 0).2.1 rfl,
   (GetLastInputType_without_upgrade engineWithoutTracker "Windows" 0).2.2.1
      (UWorld.mk none) rfl rfl,
   (GetLastInputType_without_upgrade
      (engineWithTracker (UInputSourceSelectorSubsystem.mk
        EInputSourceSelectorInputType.Touch none)) "Windows" 0).1
      (UWorld.mk (some (UInputSourceSelectorSubsystem.mk
        EInputSourceSelectorInputType.Touch none)))
      (UInputSourceSelectorSubsystem.mk EInputSourceSelectorInputType.Touch none) rfl rfl,
   (GetLastInputType_without_upgrade (engineWithTracker NewObject) "Windows" 0).2.2.2
      (UWorld.mk (some NewObject)) none (worldWithOwner none) rfl (Or.inl rfl)⟩

/-- C8: when the context resolves to a tracker whose cached `LastInputType` is
not Unknown, `GetLastInputType` returns that cached type for both values of
`bUpgradeUnknownToDefaults` and for every platform name, so the results for any
two platform names are equal. -/
theorem GetLastInputType_observed_ignores_platform (GEngine : UEngine) (WorldContext : UObject)
    (World : UWorld) (Subsystem : UInputSourceSelectorSubsystem)
    (hWorld : GEngine.GetWorldFromContextObject WorldContext = some World)
    (hSubsystem : World.GetSubsystem = some Subsystem)
    (hObserved : Subsystem.LastInputType ≠ EInputSourceSelectorInputType.Unknown)
    (bUpgradeUnknownToDefaults : Bool) (PlatformName1 PlatformName2 : FString) :
    GetLastInputType GEngine PlatformName1 WorldContext bUpgradeUnknownToDefaults =
      Subsystem.LastInputType ∧
    GetLastInputType GEngine PlatformName1 WorldContext bUpgradeUnknownToDefaults =
      GetLastInputType GEngine PlatformName2 WorldContext bUpgradeUnknownToDefaults := by
  have h : ∀ PlatformName : FString,
      GetLastInputType GEngine PlatformName WorldContext bUpgradeUnknownToDefaults =
        Subsystem.LastInputType := by
    intro PlatformName
    simp [GetLastInputType, hWorld, hSubsystem, hObserved]
  exact ⟨h PlatformName1, (h PlatformName1).trans (h PlatformName2).symm⟩

/-- C8 at concrete inputs: a tracker that last saw a gamepad, queried with the
upgrade requested on "Windows" and on "Android". -/
theorem GetLastInputType_observed_ignores_platform_witness :
    GetLastInputType
        (engineWithTracker (UInputSourceSelectorSubsystem.mk
          EInputSourceSelectorInputType.Gamepad none)) "Windows" 0 true =
      EInputSourceSelectorInputType.Gamepad ∧
    GetLastInputType
        (engineWithTracker (UInputSourceSelectorSubsystem.mk
          EInputSourceSelectorInputType.Gamepad none)) "Windows" 0 true =
      GetLastInputType
        (engineWithTracker (UInputSourceSelectorSubsystem.mk
          EInputSourceSelectorInputType.Gamepad none)) "Android" 0 true :=
  GetLastInputType_observed_ignores_platform
    (engineWithTracker (UInputSourceSelectorSubsystem.mk
      EInputSourceSelectorInputType.Gamepad none)) 0
    (UWorld.mk (some (UInputSourceSelectorSubsystem.mk
      EInputSourceSelectorInputType.Gamepad none)))
    (UInputSourceSelectorSubsystem.mk EInputSourceSelectorInputType.Gamepad none)
    rfl rfl (by decide) true "Windows" "Android"

/-- C3 as stated fails at a concrete input: with no input observed and the
upgrade requested, the platform name "windows" is none of the six names of the
table as written, yet the result is MouseAndKeyboard and not Gamepad, because
the key match of the table ignores letter case. -/
theorem GetLastInputType_windows_lowercase :
    "windows" ∉ ["Windows", "Mac", "Linux", "IOS", "iOS", "Android"] ∧
    GetLastInputType engineWithoutWorld "windows" 0 true =
      EInputSourceSelectorInputType.MouseAndKeyboard ∧
    GetLastInputType engineWithoutWorld "windows" 0 true ≠
      EInputSourceSelectorInputType.Gamepad := by
  refine ⟨by decide, by decide, by decide⟩

/-- C3, amended: with `bUpgradeUnknownToDefaults = true` and no input observed
(the context resolves to no world, the world has no tracker, or the cached type
is Unknown), `GetLastInputType` returns MouseAndKeyboard when the platform name
equals "Windows", "Mac" or "Linux" with letter case ignored, Touch when it
equals "IOS", "iOS" or "Android" with letter case ignored, and Gamepad for
every other platform name; "Windows" gives MouseAndKeyboard, "Android" gives
Touch, and the result is never Unknown. -/
theorem GetLastInputType_platform_default (GEngine : UEngine) (PlatformName : FString)
    (WorldContext : UObject)
    (hUnobserved : ∀ (World : UWorld) (Subsystem : UInputSourceSelectorSubsystem),
      GEngine.GetWorldFromContextObject WorldContext = some World →
      World.GetSubsystem = some Subsystem →
      Subsystem.LastInputType = EInputSourceSelectorInputType.Unknown) :
    GetLastInputType GEngine PlatformName WorldContext true =
      (if (FStringEq PlatformName "Windows" || FStringEq PlatformName "Mac" ||
          FStringEq PlatformName "Linux") = true then
        EInputSourceSelectorInputType.MouseAndKeyboard
      else if (FStringEq PlatformName "IOS" || FStringEq PlatformName "iOS" ||
          FStringEq PlatformName "Android") = true then
        EInputSourceSelectorInputType.Touch
      else
        EInputSourceSelectorInputType.Gamepad) ∧
    (PlatformName = "Windows" ∨ PlatformName = "Mac" ∨ PlatformName = "Linux" →
      GetLastInputType GEngine PlatformName WorldContext true =
        EInputSourceSelectorInputType.MouseAndKeyboard) ∧
    (PlatformName = "IOS" ∨ PlatformName = "iOS" ∨ PlatformName = "Android" →
      GetLastInputType GEngine PlatformName WorldContext true =
        EInputSourceSelectorInputType.Touch) ∧
    GetLastInputType GEngine PlatformName WorldContext true ≠
      EInputSourceSelectorInputType.Unknown := by
  have hCached :
      (match GEngine.GetWorldFromContextObject WorldContext with
        | some World =>
          match World.GetSubsystem with
          | some Subsystem => Subsystem.LastInputType
          | none => EInputSourceSelectorInputType.Unknown
        | none => EInputSourceSelectorInputType.Unknown) =
      EInputSourceSelectorInputType.Unknown := by
    cases hWorld : GEngine.GetWorldFromContextObject WorldContext with
    | none => rfl
    | some World =>
      cases hSubsystem : World.GetSubsystem with
      | none => simp only [hSubsystem]
      | some Subsystem =>
        simp only [hSubsystem]
        exact hUnobserved World Subsystem hWorld hSubsystem
  have hValue : GetLastInputType GEngine PlatformName WorldContext true =
      (if (FStringEq PlatformName "Windows" || FStringEq PlatformName "Mac" ||
          FStringEq PlatformName "Linux") = true then
        EInputSourceSelectorInputType.MouseAndKeyboard
      else if (FStringEq PlatformName "IOS" || FStringEq PlatformName "iOS" ||
          FStringEq PlatformName "Android") = true then
        EInputSourceSelectorInputType.Touch
      else
        EInputSourceSelectorInputType.Gamepad) := by
    simp only [GetLastInputType, hCached, PlatformDefaults_find]
    split_ifs <;> simp_all
  refine ⟨hValue, ?_, ?_, ?_⟩
  · intro hName
    rw [hValue]
    rcases hName with h | h | h <;> subst h <;> decide
  · intro hName
    rw [hValue]
    rcases hName with h | h | h <;> subst h <;> decide
  · rw [hValue]
    split_ifs <;> decide

/-- C3, amended, at concrete inputs: "Windows" with no world, "Android" with a
world without tracker, an unlisted platform with a newly created tracker, and
"ANDROID" with no world. -/
theorem GetLastInputType_platform_default_witness :
    GetLastInputType engineWithoutWorld "Windows" 0 true =
      EInputSourceSelectorInputType.MouseAndKeyboard ∧
    GetLastInputType engineWithoutTracker "Android" 0 true =
      EInputSourceSelectorInputType.Touch ∧
    GetLastInputType (engineWithTracker NewObject) "PS5" 0 true =
      EInputSourceSelectorInputType.Gamepad ∧
    GetLastInputType engineWithoutWorld "ANDROID" 0 true =
      EInputSourceSelectorInputType.Touch :=
  ⟨(GetLastInputType_platform_default engineWithoutWorld "Windows" 0
      (fun _ _ h => by simp [engineWithoutWorld] at h)).2.1 (Or.inl rfl),
   (GetLastInputType_platform_default engineWithoutTracker "Android" 0
      (fun World _ h h2 => by
        simp only [engineWithoutTracker, Option.some.injEq] at h
        subst h
        simp at h2)).2.2.1 (Or.inr (Or.inr rfl)),
   (GetLastInputType_platform_default (engineWithTracker NewObject) "PS5" 0
      (fun World Subsystem h h2 => by
        simp only [engineWithTracker, Option.some.injEq] at h
        subst h
        simp only [Option.some.injEq] at h2
        subst h2
        rfl)).1.trans (by decide),
   (GetLastInputType_platform_default engineWithoutWorld "ANDROID" 0
      (fun _ _ h => by simp [engineWithoutWorld] at h)).1.trans (by decide)⟩

/-! ## The binding query: properties -/

theorem foldl_Add_eq_filter {Mapping : Type} (KeyOf : Mapping → FKey)
    (DesiredInputType : EInputSourceSelectorInputType) (Mappings : List Mapping)
    (Keys : List FKey) :
    Mappings.foldl
        (fun Keys Mapping =>
          if GetInputTypeFromKey (KeyOf Mapping) == DesiredInputType then Keys ++ [KeyOf Mapping]
          else Keys)
        Keys =
      Keys ++ (Mappings.map KeyOf).filter
        (fun Key => GetInputTypeFromKey Key == DesiredInputType) := by
  induction Mappings generalizing Keys with
  | nil => simp
  | cons Head Tail ih =>
    simp only [List.foldl_cons, List.map_cons]
    rw [ih]
    by_cases h : (GetInputTypeFromKey (KeyOf Head) == DesiredInputType) = true
    · simp [h, List.filter_cons]
    · simp [h, List.filter_cons]

theorem GetKeysByInputBindingName_some (GEngine : UEngine) (PlatformName : FString)
    (InputSettings : UInputSettings) (WorldContext : UObject) (Name : FName) :
    GetKeysByInputBindingName GEngine PlatformName (some InputSettings) WorldContext Name =
      ((InputSettings.GetActionMappingByName Name).map FInputActionKeyMapping.Key).filter
        (fun Key =>
          GetInputTypeFromKey Key == GetLastInputType GEngine PlatformName WorldContext true) ++
      ((InputSettings.GetAxisMappingByName Name).map FInputAxisKeyMapping.Key).filter
        (fun Key =>
          GetInputTypeFromKey Key == GetLastInputType GEngine PlatformName WorldContext true) := by
  simp only [GetKeysByInputBindingName]
  rw [foldl_Add_eq_filter FInputActionKeyMapping.Key, foldl_Add_eq_filter FInputAxisKeyMapping.Key]
  simp

/-- C5: when input settings are available, `GetKeysByInputBindingName` returns
the keys of the action mappings reported for the name whose classification
equals `D = GetLastInputType(context, true)`, in the reported order, followed
by the keys of the axis mappings reported for the name whose classification
equals `D`, in the reported order. Every returned key classifies as `D`; a key
is returned exactly when it classifies as `D` and is the key of an action or
axis mapping of that name in the tables; and a key is returned as many times
as it is reported by the two tables together. -/
theorem GetKeysByInputBindingName_filters_by_last_input_type (GEngine : UEngine)
    (PlatformName : FString) (InputSettings : UInputSettings) (WorldContext : UObject)
    (Name : FName) :
    GetKeysByInputBindingName GEngine PlatformName (some InputSettings) WorldContext Name =
      ((InputSettings.GetActionMappingByName Name).map FInputActionKeyMapping.Key).filter
        (fun Key =>
          GetInputTypeFromKey Key == GetLastInputType GEngine PlatformName WorldContext true) ++
      ((InputSettings.GetAxisMappingByName Name).map FInputAxisKeyMapping.Key).filter
        (fun Key =>
          GetInputTypeFromKey Key == GetLastInputType GEngine PlatformName WorldContext true) ∧
    (∀ Key ∈ GetKeysByInputBindingName GEngine PlatformName (some InputSettings) WorldContext Name,
      GetInputTypeFromKey Key = GetLastInputType GEngine PlatformName WorldContext true) ∧
    (∀ Key : FKey,
      Key ∈ GetKeysByInputBindingName GEngine PlatformName (some InputSettings) WorldContext Name ↔
        GetInputTypeFromKey Key = GetLastInputType GEngine PlatformName WorldContext true ∧
        ((∃ Mapping ∈ InputSettings.ActionMappings,
            Mapping.ActionName = Name ∧ Mapping.Key = Key) ∨
          (∃ Mapping ∈ InputSettings.AxisMappings,
            Mapping.AxisName = Name ∧ Mapping.Key = Key))) ∧
    (∀ Key : FKey,
      GetInputTypeFromKey Key = GetLastInputType GEngine PlatformName WorldContext true →
      (GetKeysByInputBindingName GEngine PlatformName (some InputSettings) WorldContext
          Name).count Key =
        ((InputSettings.GetActionMappingByName Name).map FInputActionKeyMapping.Key).count Key +
        ((InputSettings.GetAxisMappingByName Name).map FInputAxisKeyMapping.Key).count Key) := by
  rw [GetKeysByInputBindingName_some]
  refine ⟨rfl, ?_, ?_, ?_⟩
  · intro Key hKey
    simp only [List.mem_append, List.mem_filter, beq_iff_eq] at hKey
    rcases hKey with h | h <;> exact h.2
  · intro Key
    simp only [List.mem_append, List.mem_filter, List.mem_map, beq_iff_eq,
      UInputSettings.GetActionMappingByName, UInputSettings.GetAxisMappingByName]
    constructor
    · rintro (⟨⟨Mapping, ⟨hMem, hName⟩, hKey⟩, hType⟩ | ⟨⟨Mapping, ⟨hMem, hName⟩, hKey⟩, hType⟩)
      · exact ⟨hType, Or.inl ⟨Mapping, hMem, hName, hKey⟩⟩
      · exact ⟨hType, Or.inr ⟨Mapping, hMem, hName, hKey⟩⟩
    · rintro ⟨hType, ⟨Mapping, hMem, hName, hKey⟩ | ⟨Mapping, hMem, hName, hKey⟩⟩
      · exact Or.inl ⟨⟨Mapping, ⟨hMem, hName⟩, hKey⟩, hType⟩
      · exact Or.inr ⟨⟨Mapping, ⟨hMem, hName⟩, hKey⟩, hType⟩
  · intro Key hType
    have hp : (GetInputTypeFromKey Key ==
        GetLastInputType GEngine PlatformName WorldContext true) = true := by
      simp [hType]
    have hCount : ∀ Keys : List FKey,
        (Keys.filter (fun Key =>
          GetInputTypeFromKey Key ==
            GetLastInputType GEngine PlatformName WorldContext true)).count Key =
          Keys.count Key := by
      intro Keys
      induction Keys with
      | nil => rfl
      | cons Head Tail ih =>
        by_cases hHead : (GetInputTypeFromKey Head ==
            GetLastInputType GEngine PlatformName WorldContext true) = true
        · simp only [List.filter_cons, hHead, if_true, List.count_cons, ih]
        · have hNe : (Head == Key) = false := by
            cases hEq : (Head == Key) with
            | false => rfl
            | true =>
              have hSame : Head = Key := by simpa using hEq
              rw [hSame] at hHead
              exact absurd hp hHead
          simp only [List.filter_cons, hHead, List.count_cons, hNe]
          simpa using ih
    rw [List.count_append, hCount, hCount]

/-- C5 at concrete inputs: the tracker last saw a gamepad; of the keys bound
to "Jump" only the gamepad key is returned, once for the action table and once
for the axis table. -/
theorem GetKeysByInputBindingName_filters_by_last_input_type_witness :
    GetKeysByInputBindingName
        (engineWithTracker (UInputSourceSelectorSubsystem.mk
          EInputSourceSelectorInputType.Gamepad none))
        "Windows" (some settingsJump) 0 "Jump" =
      [keyGamepadFaceButton, keyGamepadFaceButton] :=
  (GetKeysByInputBindingName_filters_by_last_input_type
      (engineWithTracker (UInputSourceSelectorSubsystem.mk
        EInputSourceSelectorInputType.Gamepad none))
      "Windows" settingsJump 0 "Jump").1.trans (by decide)

/-! ## Registration of the catch-all binding: properties -/

theorem FNameEq_self (Name : FName) : FNameEq Name Name = true := by
  simp [FNameEq]

theorem returnsInLoop_eq_true_iff (Mappings : List FInputActionKeyMapping) :
    SetUpInputBindings.returnsInLoop Mappings = true ↔
      ∃ Mapping ∈ Mappings, FNameEq Mapping.ActionName ActionName = true := by
  induction Mappings with
  | nil => simp [SetUpInputBindings.returnsInLoop]
  | cons Head Tail ih =>
    cases h : FNameEq Head.ActionName ActionName with
    | true => simp [SetUpInputBindings.returnsInLoop, h]
    | false => simp [SetUpInputBindings.returnsInLoop, h, ih]

theorem returnsInLoop_append_reserved (Mappings : List FInputActionKeyMapping) (Key : FKey) :
    SetUpInputBindings.returnsInLoop (Mappings ++ [FInputActionKeyMapping.mk ActionName Key]) =
      true := by
  rw [returnsInLoop_eq_true_iff]
  exact ⟨FInputActionKeyMapping.mk ActionName Key, by simp, FNameEq_self ActionName⟩

theorem countP_reserved_eq_zero (Mappings : List FInputActionKeyMapping)
    (h : ∀ Mapping ∈ Mappings, FNameEq Mapping.ActionName ActionName = false) :
    Mappings.countP (fun Mapping => FNameEq Mapping.ActionName ActionName) = 0 := by
  rw [List.countP_eq_zero]
  intro Mapping hMem
  simp [h Mapping hMem]

/-- C9: `SetUpInputBindings` is idempotent on available input settings: running
it twice gives the settings that running it once gives. When the action table
already has a mapping whose name compares equal to `ActionName` (as `FName`s
compare, letter case ignored) the settings are left unchanged; when it has
none, the table gains exactly the one mapping (`ActionName`, `AnyKey`) at its
end, and after two runs the table holds exactly one mapping of that name. -/
theorem SetUpInputBindings_idempotent (Settings : UInputSettings) :
    SetUpInputBindings (SetUpInputBindings (some Settings)) =
      SetUpInputBindings (some Settings) ∧
    ((∃ Mapping ∈ Settings.ActionMappings, FNameEq Mapping.ActionName ActionName = true) →
      SetUpInputBindings (some Settings) = some Settings) ∧
    ((∀ Mapping ∈ Settings.ActionMappings, FNameEq Mapping.ActionName ActionName = false) →
      SetUpInputBindings (some Settings) =
        some (UInputSettings.mk
          (Settings.ActionMappings ++ [FInputActionKeyMapping.mk ActionName EKeys.AnyKey])
          Settings.AxisMappings) ∧
      ∃ Settings2 : UInputSettings,
        SetUpInputBindings (SetUpInputBindings (some Settings)) = some Settings2 ∧
        Settings2.ActionMappings.countP
          (fun Mapping => FNameEq Mapping.ActionName ActionName) = 1) := by
  have hHas : (∃ Mapping ∈ Settings.ActionMappings,
        FNameEq Mapping.ActionName ActionName = true) →
      SetUpInputBindings (some Settings) = some Settings := by
    intro h
    simp [SetUpInputBindings, (returnsInLoop_eq_true_iff _).2 h]
  have hNone : (∀ Mapping ∈ Settings.ActionMappings,
        FNameEq Mapping.ActionName ActionName = false) →
      SetUpInputBindings (some Settings) =
        some (UInputSettings.mk
          (Settings.ActionMappings ++ [FInputActionKeyMapping.mk ActionName EKeys.AnyKey])
          Settings.AxisMappings) := by
    intro h
    have hLoop : SetUpInputBindings.returnsInLoop Settings.ActionMappings = false := by
      cases hb : SetUpInputBindings.returnsInLoop Settings.ActionMappings with
      | false => rfl
      | true =>
        obtain ⟨Mapping, hMem, hName⟩ := (returnsInLoop_eq_true_iff _).1 hb
        rw [h Mapping hMem] at hName
        exact absurd hName (by decide)
    simp [SetUpInputBindings, hLoop, UInputSettings.AddActionMapping]
  have hAgain : SetUpInputBindings
      (some (UInputSettings.mk
        (Settings.ActionMappings ++ [FInputActionKeyMapping.mk ActionName EKeys.AnyKey])
        Settings.AxisMappings)) =
      some (UInputSettings.mk
        (Settings.ActionMappings ++ [FInputActionKeyMapping.mk ActionName EKeys.AnyKey])
        Settings.AxisMappings) := by
    simp [SetUpInputBindings, returnsInLoop_append_reserved]
  refine ⟨?_, hHas, ?_⟩
  · by_cases h : ∃ Mapping ∈ Settings.ActionMappings,
        FNameEq Mapping.ActionName ActionName = true
    · rw [hHas h, hHas h]
    · have h2 : ∀ Mapping ∈ Settings.ActionMappings,
          FNameEq Mapping.ActionName ActionName = false := by
        intro Mapping hMem
        cases hb : FNameEq Mapping.ActionName ActionName with
        | false => rfl
        | true => exact absurd ⟨Mapping, hMem, hb⟩ h
      rw [hNone h2, hAgain]
  · intro h
    refine ⟨hNone h, _, by rw [hNone h, hAgain], ?_⟩
    simp [List.countP_append, countP_reserved_eq_zero _ h, FNameEq_self]

/-- C9 at concrete inputs: on settings without a mapping named `ActionName`,
two runs give what one run gives, the tables of `settingsJump` with the one
mapping (`ActionName`, `AnyKey`) at the end of the action table; on settings
that hold the reserved name in lower case, a run changes nothing. -/
theorem SetUpInputBindings_idempotent_witness :
    SetUpInputBindings (SetUpInputBindings (some settingsJump)) =
      some (UInputSettings.mk
        (settingsJump.ActionMappings ++ [FInputActionKeyMapping.mk ActionName EKeys.AnyKey])
        settingsJump.AxisMappings) ∧
    SetUpInputBindings (some settingsReservedLowerCase) = some settingsReservedLowerCase :=
  ⟨(SetUpInputBindings_idempotent settingsJump).1.trans
      ((SetUpInputBindings_idempotent settingsJump).2.2 (by decide)).1,
   (SetUpInputBindings_idempotent settingsReservedLowerCase).2.1
      ⟨FInputActionKeyMapping.mk "uinputsourceselectorsubsystem.inputsourcelisteneraction"
        EKeys.AnyKey, by decide, by decide⟩⟩

/-! ## Attachment of the listener: properties -/

theorem checkFound_of_valid (World : FInputWorld) (This : UInputSourceSelectorSubsystem)
    (Handle : Nat) (hFound : This.FoundInputComponent = some Handle)
    (hValid : (World.InputComponents Handle).bIsValid = true) :
    BindToInputComponent.checkFound World This =
      match CastPlayerController (World.InputComponents Handle).GetOwner with
      | some true => none
      | some false => some (World.detached Handle)
      | none => some World := by
  simp only [BindToInputComponent.checkFound, hFound, hValid, if_true]
  cases hCast : CastPlayerController (World.InputComponents Handle).GetOwner with
  | none => rfl
  | some bIsPrimaryPlayer =>
    cases bIsPrimaryPlayer with
    | true => rfl
    | false => rfl

theorem findFirstPlayer_of_component (World : FInputWorld)
    (This : UInputSourceSelectorSubsystem) (Endpoint : Nat)
    (hPlayer : World.GetPlayerController0 = some (AController.mk (some Endpoint))) :
    BindToInputComponent.findFirstPlayer World This =
      (World.attached Endpoint,
       UInputSourceSelectorSubsystem.mk This.LastInputType (some Endpoint)) := by
  simp only [BindToInputComponent.findFirstPlayer, hPlayer]
  rfl

theorem findFirstPlayer_of_none (World : FInputWorld) (This : UInputSourceSelectorSubsystem)
    (hPlayer : World.GetPlayerController0 = none ∨
      World.GetPlayerController0 = some (AController.mk none)) :
    BindToInputComponent.findFirstPlayer World This = (World, This) := by
  rcases hPlayer with h | h <;> simp only [BindToInputComponent.findFirstPlayer, h]

theorem ListenerBinding_mem_attached (World : FInputWorld) (Endpoint : Nat) :
    ListenerBinding ∈ ((World.attached Endpoint).InputComponents Endpoint).ActionBindings := by
  simp [FInputWorld.attached, FInputWorld.setComponent, UInputComponent.AddActionBinding]

theorem detached_GetOwner (World : FInputWorld) (Handle Other : Nat) :
    ((World.detached Handle).InputComponents Other).GetOwner =
      (World.InputComponents Other).GetOwner := by
  simp only [FInputWorld.detached, FInputWorld.setComponent]
  by_cases h : Other = Handle
  · subst h
    simp [UInputComponent.RemoveActionBinding]
  · simp [h]

theorem attached_GetOwner (World : FInputWorld) (Handle Other : Nat) :
    ((World.attached Handle).InputComponents Other).GetOwner =
      (World.InputComponents Other).GetOwner := by
  simp only [FInputWorld.attached, FInputWorld.setComponent]
  by_cases h : Other = Handle
  · subst h
    simp [UInputComponent.AddActionBinding]
  · simp [h]

theorem checkFound_some (World World1 : FInputWorld) (This : UInputSourceSelectorSubsystem)
    (h : BindToInputComponent.checkFound World This = some World1) :
    World1 = World ∨ ∃ Handle : Nat, World1 = World.detached Handle := by
  unfold BindToInputComponent.checkFound at h
  cases hFound : This.FoundInputComponent with
  | none =>
    simp only [hFound, Option.some.injEq] at h
    exact Or.inl h.symm
  | some Handle =>
    simp only [hFound] at h
    cases hValid : (World.InputComponents Handle).bIsValid with
    | false =>
      simp only [hValid, Bool.false_eq_true, if_false, Option.some.injEq] at h
      exact Or.inl h.symm
    | true =>
      simp only [hValid, if_true] at h
      cases hCast : CastPlayerController (World.InputComponents Handle).GetOwner with
      | none =>
        simp only [hCast, Option.some.injEq] at h
        exact Or.inl h.symm
      | some bIsPrimaryPlayer =>
        cases bIsPrimaryPlayer with
        | true => simp [hCast] at h
        | false =>
          simp only [hCast, Bool.false_eq_true, if_false, Option.some.injEq] at h
          exact Or.inr ⟨Handle, h.symm⟩

theorem findFirstPlayer_cases (World : FInputWorld) (This : UInputSourceSelectorSubsystem) :
    BindToInputComponent.findFirstPlayer World This = (World, This) ∨
    ∃ Endpoint : Nat,
      World.GetPlayerController0 = some (AController.mk (some Endpoint)) ∧
      BindToInputComponent.findFirstPlayer World This =
        (World.attached Endpoint,
         UInputSourceSelectorSubsystem.mk This.LastInputType (some Endpoint)) := by
  cases hPlayer : World.GetPlayerController0 with
  | none => exact Or.inl (findFirstPlayer_of_none World This (Or.inl hPlayer))
  | some PlayerController =>
    obtain ⟨Component⟩ := PlayerController
    cases Component with
    | none => exact Or.inl (findFirstPlayer_of_none World This (Or.inr hPlayer))
    | some Endpoint =>
      exact Or.inr ⟨Endpoint, rfl, findFirstPlayer_of_component World This Endpoint hPlayer⟩

theorem NewObject_FoundInputComponent : NewObject.FoundInputComponent = none := rfl

/-- The attached endpoint is always a component of a player controller: when
the input component of player 0 is owned by a player controller, as the
component that `PlayerController->GetComponentByClass` returns is, and the
endpoint attached before the pass (if any) is owned by a player controller, so
is the endpoint attached after the pass. A newly created tracker has no
endpoint attached, and `HandleInput` leaves the attachment as it is, so the
assignment in `BindToInputComponent` is the only source of attached
endpoints. -/
theorem BindToInputComponent_attached_owned (World : FInputWorld)
    (This : UInputSourceSelectorSubsystem)
    (hWorld : ∀ Endpoint : Nat,
      World.GetPlayerController0 = some (AController.mk (some Endpoint)) →
      OwnedByPlayerController World Endpoint = true)
    (hThis : ∀ Handle : Nat, This.FoundInputComponent = some Handle →
      OwnedByPlayerController World Handle = true) :
    ∀ Handle : Nat, (BindToInputComponent World This).2.FoundInputComponent = some Handle →
      OwnedByPlayerController (BindToInputComponent World This).1 Handle = true := by
  intro Handle
  unfold BindToInputComponent
  cases hCheck : BindToInputComponent.checkFound World This with
  | none => exact hThis Handle
  | some World1 =>
    have hOwner1 : ∀ Other : Nat,
        (World1.InputComponents Other).GetOwner = (World.InputComponents Other).GetOwner := by
      intro Other
      rcases checkFound_some World World1 This hCheck with h | ⟨Detached, h⟩
      · rw [h]
      · rw [h]
        exact detached_GetOwner World Detached Other
    have hPlayer1 : World1.GetPlayerController0 = World.GetPlayerController0 := by
      rcases checkFound_some World World1 This hCheck with h | ⟨Detached, h⟩
      · rw [h]
      · rw [h]
        rfl
    rcases findFirstPlayer_cases World1 This with hSame | ⟨Endpoint, hPlayer, hAttach⟩
    · simp only [hSame]
      intro hFound
      have := hThis Handle hFound
      simp only [OwnedByPlayerController, hOwner1] at this ⊢
      exact this
    · simp only [hAttach, Option.some.injEq]
      intro hFound
      subst hFound
      have := hWorld Endpoint (hPlayer1 ▸ hPlayer)
      simp only [OwnedByPlayerController, attached_GetOwner, hOwner1] at this ⊢
      exact this

/-- C10: for every tracker state in which the attached endpoint is valid (and,
as every attached endpoint is, owned by a player controller), one pass of
`BindToInputComponent` does the following. If the endpoint belongs to the
primary player, the pass changes nothing: no binding is added or removed and
the attached endpoint stays. If the endpoint does not belong to the primary
player, the pass removes the `ActionName` listener from that endpoint, and
when player 0 has an input component `e`, it ends with `e` attached and
carrying the non-consuming `ActionName` listener. -/
theorem BindToInputComponent_reconciles (World : FInputWorld)
    (This : UInputSourceSelectorSubsystem) (Handle : Nat)
    (hFound : This.FoundInputComponent = some Handle)
    (hValid : IsValid World This.FoundInputComponent = true)
    (hOwner : OwnedByPlayerController World Handle = true) :
    (CastPlayerController (World.InputComponents Handle).GetOwner = some true →
      BindToInputComponent World This = (World, This)) ∧
    (CastPlayerController (World.InputComponents Handle).GetOwner ≠ some true →
      ((World.GetPlayerController0 = none ∨
          World.GetPlayerController0 = some (AController.mk none)) →
        BindToInputComponent World This = (World.detached Handle, This)) ∧
      (∀ Endpoint : Nat,
        World.GetPlayerController0 = some (AController.mk (some Endpoint)) →
        BindToInputComponent World This =
          ((World.detached Handle).attached Endpoint,
           UInputSourceSelectorSubsystem.mk This.LastInputType (some Endpoint)) ∧
        (BindToInputComponent World This).2.FoundInputComponent = some Endpoint ∧
        ListenerBinding ∈
          ((BindToInputComponent World This).1.InputComponents Endpoint).ActionBindings ∧
        ListenerBinding.bConsumeInput = false ∧ ListenerBinding.ActionName = ActionName ∧
        (Endpoint ≠ Handle →
          (BindToInputComponent World This).1.InputComponents Handle =
            (World.InputComponents Handle).RemoveActionBinding ActionName
              EInputEvent.IE_Pressed))) := by
  have hValid2 : (World.InputComponents Handle).bIsValid = true := by
    simpa [IsValid, hFound] using hValid
  have hCheck := checkFound_of_valid World This Handle hFound hValid2
  refine ⟨?_, ?_⟩
  · intro hPrimary
    rw [hPrimary] at hCheck
    simp only [BindToInputComponent, hCheck]
  · intro hNotPrimary
    have hCast : CastPlayerController (World.InputComponents Handle).GetOwner = some false := by
      simp only [OwnedByPlayerController] at hOwner
      cases hc : CastPlayerController (World.InputComponents Handle).GetOwner with
      | none => simp [hc] at hOwner
      | some bIsPrimaryPlayer =>
        cases bIsPrimaryPlayer with
        | false => rfl
        | true => exact absurd hc hNotPrimary
    rw [hCast] at hCheck
    have hPass : BindToInputComponent World This =
        BindToInputComponent.findFirstPlayer (World.detached Handle) This := by
      simp only [BindToInputComponent, hCheck]
    refine ⟨?_, ?_⟩
    · intro hPlayer
      rw [hPass]
      exact findFirstPlayer_of_none _ This hPlayer
    · intro Endpoint hPlayer
      have hEq := findFirstPlayer_of_component (World.detached Handle) This Endpoint hPlayer
      rw [hPass, hEq]
      refine ⟨rfl, rfl, ListenerBinding_mem_attached _ Endpoint, rfl, rfl, ?_⟩
      intro hNe
      have hNe2 : Handle ≠ Endpoint := fun h => hNe h.symm
      simp [FInputWorld.attached, FInputWorld.detached, FInputWorld.setComponent, hNe2]

/-- C10 at concrete inputs: component 0 is attached and valid; when its owner
is the primary player controller the pass changes nothing; when its owner is
a player controller that is not the primary player and player 0 has component
1, the pass takes the listener off component 0 and ends attached to component
1, which carries the listener. -/
theorem BindToInputComponent_reconciles_witness :
    BindToInputComponent (worldWithOwner (some (AActor.PlayerController true)))
        trackerAttachedTo0 =
      (worldWithOwner (some (AActor.PlayerController true)), trackerAttachedTo0) ∧
    (BindToInputComponent (worldWithOwner (some (AActor.PlayerController false)))
        trackerAttachedTo0 =
      (((worldWithOwner (some (AActor.PlayerController false))).detached 0).attached 1,
       UInputSourceSelectorSubsystem.mk EInputSourceSelectorInputType.Unknown (some 1)) ∧
    (BindToInputComponent (worldWithOwner (some (AActor.PlayerController false)))
        trackerAttachedTo0).2.FoundInputComponent = some 1 ∧
    ListenerBinding ∈
      ((BindToInputComponent (worldWithOwner (some (AActor.PlayerController false)))
        trackerAttachedTo0).1.InputComponents 1).ActionBindings ∧
    ListenerBinding.bConsumeInput = false ∧ ListenerBinding.ActionName = ActionName ∧
    (1 ≠ 0 →
      (BindToInputComponent (worldWithOwner (some (AActor.PlayerController false)))
        trackerAttachedTo0).1.InputComponents 0 =
        ((worldWithOwner (some (AActor.PlayerController false))).InputComponents
          0).RemoveActionBinding ActionName EInputEvent.IE_Pressed)) :=
  ⟨(BindToInputComponent_reconciles (worldWithOwner (some (AActor.PlayerController true)))
      trackerAttachedTo0 0 rfl rfl rfl).1 rfl,
   ((BindToInputComponent_reconciles (worldWithOwner (some (AActor.PlayerController false)))
      trackerAttachedTo0 0 rfl rfl rfl).2 (by decide)).2 1 rfl⟩

end InputSourceSelector
